import Mathlib

/-!
# Verification of the push-up repetition detector

Shallow embedding of `app/services/detectors/pushup_detector.py`
(`class PushupDetector`).  Python floats are modelled as exact rationals
(`ℚ`); the wall-clock reads (`time.time()`) inside `update` are modelled
by an explicit `now : ℚ` argument used for both the debounce comparison
and the `last_rep_time` write of the same call.  The two bounded
`collections.deque` buffers are modelled as lists with explicit FIFO
eviction.
-/

namespace PushupDetector

/-- The phase labels the detector works with: the strings
`"up"`, `"down"`, `"transition"`, `"neutral"` of the Python source. -/
inductive Phase
  | up
  | down
  | transition
  | neutral
deriving DecidableEq, Fintype

/-- The mutable state of a `PushupDetector` instance (`__init__`,
lines 11-18).  `min_rep_interval` is set once in the constructor and
never reassigned, but it is a field of the object, so it is kept as a
field here. -/
structure DetectorState where
  rep_count : Nat
  current_phase : Phase
  last_phase : Phase
  phase_history : List Phase
  last_rep_time : ℚ
  min_rep_interval : ℚ
  position_history : List Phase
deriving DecidableEq

/-- The freshly constructed detector (`__init__`). -/
def initState : DetectorState :=
  { rep_count := 0
    current_phase := Phase.neutral
    last_phase := Phase.neutral
    phase_history := []
    last_rep_time := 0
    min_rep_interval := 1
    position_history := [] }

/-- Python `l[-n:]`: the last `min n l.length` elements of `l`. -/
def lastN (n : Nat) (l : List Phase) : List Phase :=
  l.drop (l.length - n)

/-- `deque(maxlen := cap).append x`: append on the right, evicting from
the left once the capacity is exceeded. -/
def pushBounded (cap : Nat) (l : List Phase) (x : Phase) : List Phase :=
  lastN cap (l ++ [x])

/-- The raw geometric classification of one 33-landmark frame
(`detect_pushup_phase`, lines 25-79: key landmark extraction, the three
difference signals, the weighted `if`/`elif` indicator votes, and the
final decision).  Landmark `i` is read with a default that is never used
when the caller has checked `length = 33`. -/
def classifyRaw (landmarks : List (ℚ × ℚ)) : Phase :=
  let y : Nat → ℚ := fun i => (landmarks.getD i ((0 : ℚ), (0 : ℚ))).2
  let avg_wrist_y := (y 15 + y 16) / 2
  let avg_shoulder_y := (y 11 + y 12) / 2
  let avg_elbow_y := (y 13 + y 14) / 2
  let nose_y := y 0
  let wrist_shoulder_diff := avg_wrist_y - avg_shoulder_y
  let elbow_shoulder_diff := avg_elbow_y - avg_shoulder_y
  let nose_shoulder_diff := nose_y - avg_shoulder_y
  let w : Nat × Nat :=
    if wrist_shoulder_diff < -(3 / 20 : ℚ) then (2, 0)
    else if (1 / 10 : ℚ) < wrist_shoulder_diff then (0, 1)
    else (0, 0)
  let e : Nat × Nat :=
    if elbow_shoulder_diff < -(1 / 20 : ℚ) then (1, 0)
    else if (1 / 20 : ℚ) < elbow_shoulder_diff then (0, 1)
    else (0, 0)
  let m : Nat × Nat :=
    if nose_shoulder_diff < -(1 / 10 : ℚ) then (1, 0)
    else if (1 / 20 : ℚ) < nose_shoulder_diff then (0, 1)
    else (0, 0)
  let up_indicators := w.1 + e.1 + m.1
  let down_indicators := w.2 + e.2 + m.2
  if 2 ≤ up_indicators then Phase.up
  else if 2 ≤ down_indicators then Phase.down
  else Phase.transition

/-- Python `max(phase_counts, key=phase_counts.get)` over the count
dictionary of `ps`: a label of `ps` whose count in `ps` is maximal,
keeping the earlier candidate on ties (Python's `max` only replaces the
running best on a strictly greater key).  The source enumerates the
candidates in `set(...)` iteration order, which is unspecified for
Python strings; this definition fixes one admissible enumeration order
(the list order), which is immaterial to every property proved below. -/
def maxByCount (ps : List Phase) : Phase :=
  ps.foldl (fun best p => if ps.count best < ps.count p then p else best)
    (ps.headD Phase.neutral)

/-- `detect_pushup_phase` (lines 20-90): length guard returning
`"neutral"` (without touching `position_history`), raw classification,
push into the capacity-5 smoothing window, and majority vote over the
last 3 window entries once the window holds at least 3 labels.  Returns
the (smoothed) phase together with the updated state. -/
def detect_pushup_phase (s : DetectorState) (landmarks : List (ℚ × ℚ)) :
    Phase × DetectorState :=
  if landmarks.length ≠ 33 then (Phase.neutral, s)
  else
    let phase := classifyRaw landmarks
    let ph := pushBounded 5 s.position_history phase
    let phase := if 3 ≤ ph.length then maxByCount (lastN 3 ph) else phase
    (phase, { s with position_history := ph })

/-- Adjacent-inequality transition count of `check_rep_completion`
(lines 127-130): the number of indices `i ≥ 1` with
`recent[i] ≠ recent[i-1]`. -/
def countTransitions : List Phase → Nat
  | a :: b :: rest => (if a ≠ b then 1 else 0) + countTransitions (b :: rest)
  | _ => 0

/-- `count_rep` (lines 139-146): increment `rep_count`, stamp
`last_rep_time`, clear `phase_history`.  The `print` call is I/O and has
no effect on the state. -/
def count_rep (s : DetectorState) (now : ℚ) : DetectorState :=
  { s with
    rep_count := s.rep_count + 1
    last_rep_time := now
    phase_history := [] }

/-- `check_rep_completion` (lines 108-137): length guard, time-debounce
guard, then the down-before-final-up pattern over the last ≤ 6 history
entries with the ≥ 2 transition requirement.  Returns the boolean result
together with the (possibly `count_rep`-mutated) state. -/
def check_rep_completion (s : DetectorState) (now : ℚ) :
    Bool × DetectorState :=
  if s.phase_history.length < 4 then (false, s)
  else if now - s.last_rep_time < s.min_rep_interval then (false, s)
  else
    let recent := lastN 6 s.phase_history
    let has_down := Phase.down ∈ recent.dropLast
    let is_up_now := recent.getLast? = some Phase.up
    if has_down ∧ is_up_now then
      if 2 ≤ countTransitions recent then (true, count_rep s now)
      else (false, s)
    else (false, s)

/-- Lines 94-96 of `update`: save `last_phase`, classify the frame
(also advancing the smoothing window), and push the resulting phase into
the capacity-10 `phase_history`. -/
def stepHistory (s : DetectorState) (landmarks : List (ℚ × ℚ)) :
    DetectorState :=
  let s1 := { s with last_phase := s.current_phase }
  let d := detect_pushup_phase s1 landmarks
  { d.2 with
    current_phase := d.1
    phase_history := pushBounded 10 d.2.phase_history d.1 }

/-- The per-frame result record `update` returns (lines 101-106). -/
structure UpdateResult where
  phase : Phase
  rep_count : Nat
  rep_completed : Bool
  phase_history : List Phase
deriving DecidableEq

/-- `update` (lines 92-106): advance phases and histories, run the
completion check, and build the result record from the state *after*
the check (so a completed rep reports the incremented count and the
cleared history snapshot). -/
def update (s : DetectorState) (landmarks : List (ℚ × ℚ)) (now : ℚ) :
    UpdateResult × DetectorState :=
  let s3 := stepHistory s landmarks
  let c := check_rep_completion s3 now
  ({ phase := s3.current_phase
     rep_count := c.2.rep_count
     rep_completed := c.1
     phase_history := c.2.phase_history }, c.2)

/-- `reset` (lines 148-153): zero the counter, clear both FIFOs, zero
the timestamp; `current_phase`, `last_phase` and the configuration
constant `min_rep_interval` are not touched. -/
def reset (s : DetectorState) : DetectorState :=
  { s with
    rep_count := 0
    phase_history := []
    position_history := []
    last_rep_time := 0 }

/-- Run a sequence of `update` calls, collecting the result records. -/
def runDetector (s : DetectorState) :
    List (List (ℚ × ℚ) × ℚ) → List UpdateResult × DetectorState
  | [] => ([], s)
  | (lm, t) :: rest =>
      let r := update s lm t
      let rs := runDetector r.2 rest
      (r.1 :: rs.1, rs.2)

/-- A 33-landmark frame seen mid push-up at the bottom: shoulders at
`y = 1/2`, wrists and nose at `y = 7/10`, everything else at `y = 1/2`,
so `wrist_shoulder_diff = 1/5 = 0.2` and `nose_shoulder_diff = 1/5`. -/
def downFrame : List (ℚ × ℚ) :=
  [(0, 7/10), (0, 1/2), (0, 1/2), (0, 1/2), (0, 1/2), (0, 1/2), (0, 1/2),
   (0, 1/2), (0, 1/2), (0, 1/2), (0, 1/2), (0, 1/2), (0, 1/2), (0, 1/2),
   (0, 1/2), (0, 7/10), (0, 7/10), (0, 1/2), (0, 1/2), (0, 1/2), (0, 1/2),
   (0, 1/2), (0, 1/2), (0, 1/2), (0, 1/2), (0, 1/2), (0, 1/2), (0, 1/2),
   (0, 1/2), (0, 1/2), (0, 1/2), (0, 1/2), (0, 1/2)]

/-- A 33-landmark frame at the top of a push-up: shoulders at `y = 1/2`,
wrists at `y = 1/4`, so `wrist_shoulder_diff = -1/4 = -0.25`. -/
def upFrame : List (ℚ × ℚ) :=
  [(0, 1/2), (0, 1/2), (0, 1/2), (0, 1/2), (0, 1/2), (0, 1/2), (0, 1/2),
   (0, 1/2), (0, 1/2), (0, 1/2), (0, 1/2), (0, 1/2), (0, 1/2), (0, 1/2),
   (0, 1/2), (0, 1/4), (0, 1/4), (0, 1/2), (0, 1/2), (0, 1/2), (0, 1/2),
   (0, 1/2), (0, 1/2), (0, 1/2), (0, 1/2), (0, 1/2), (0, 1/2), (0, 1/2),
   (0, 1/2), (0, 1/2), (0, 1/2), (0, 1/2), (0, 1/2)]

/-! States reached from `initState` by five `downFrame` updates at time 10
followed by five `upFrame` updates at any time `t ≥ 1` (no rep is ever
counted on this trace, so `last_rep_time` stays 0 and the times do not
influence the state evolution). -/

def sD1 : DetectorState := ⟨0, .down, .neutral, [.down], 0, 1, [.down]⟩

def sD2 : DetectorState := ⟨0, .down, .down, [.down, .down], 0, 1, [.down, .down]⟩

def sD3 : DetectorState :=
  ⟨0, .down, .down, [.down, .down, .down], 0, 1, [.down, .down, .down]⟩

def sD4 : DetectorState :=
  ⟨0, .down, .down, [.down, .down, .down, .down], 0, 1,
   [.down, .down, .down, .down]⟩

def sD5 : DetectorState :=
  ⟨0, .down, .down, [.down, .down, .down, .down, .down], 0, 1,
   [.down, .down, .down, .down, .down]⟩

def sU6 : DetectorState :=
  ⟨0, .down, .down, [.down, .down, .down, .down, .down, .down], 0, 1,
   [.down, .down, .down, .down, .up]⟩

def sU7 : DetectorState :=
  ⟨0, .up, .down, [.down, .down, .down, .down, .down, .down, .up], 0, 1,
   [.down, .down, .down, .up, .up]⟩

def sU8 : DetectorState :=
  ⟨0, .up, .up, [.down, .down, .down, .down, .down, .down, .up, .up], 0, 1,
   [.down, .down, .up, .up, .up]⟩

def sU9 : DetectorState :=
  ⟨0, .up, .up, [.down, .down, .down, .down, .down, .down, .up, .up, .up], 0, 1,
   [.down, .up, .up, .up, .up]⟩

def sU10 : DetectorState :=
  ⟨0, .up, .up,
   [.down, .down, .down, .down, .down, .down, .up, .up, .up, .up], 0, 1,
   [.up, .up, .up, .up, .up]⟩

/-- The spec's reading of the classifier (§4.1): the three indicator
conditions of the table cast their votes independently of each other
(`wrist < −0.15` gives +2 up, `wrist > 0.10` gives +1 down, `elbow`
and `nose` each give +1 on their side), and the decision is
`Up` if `up_indicators ≥ 2`, else `Down` if `down_indicators ≥ 2`,
else `Transition`; a frame without exactly 33 points is `Neutral`.
This definition follows the spec's words and is compared against the
source-derived `classifyRaw` in the C2 theorem. -/
def specClassify (landmarks : List (ℚ × ℚ)) : Phase :=
  if landmarks.length ≠ 33 then Phase.neutral
  else
    let y : Nat → ℚ := fun i => (landmarks.getD i ((0 : ℚ), (0 : ℚ))).2
    let wrist_shoulder_diff := (y 15 + y 16) / 2 - (y 11 + y 12) / 2
    let elbow_shoulder_diff := (y 13 + y 14) / 2 - (y 11 + y 12) / 2
    let nose_shoulder_diff := y 0 - (y 11 + y 12) / 2
    let up_indicators :=
      (if wrist_shoulder_diff < -(3 / 20 : ℚ) then 2 else 0) +
      (if elbow_shoulder_diff < -(1 / 20 : ℚ) then 1 else 0) +
      (if nose_shoulder_diff < -(1 / 10 : ℚ) then 1 else 0)
    let down_indicators :=
      (if (1 / 10 : ℚ) < wrist_shoulder_diff then 1 else 0) +
      (if (1 / 20 : ℚ) < elbow_shoulder_diff then 1 else 0) +
      (if (1 / 20 : ℚ) < nose_shoulder_diff then 1 else 0)
    if 2 ≤ up_indicators then Phase.up
    else if 2 ≤ down_indicators then Phase.down
    else Phase.transition

/-- The completion pattern of `check_rep_completion` as the claims state
it: at least 4 history entries, a `Down` among all but the last of the
inspected (last ≤ 6) window, a final `Up`, and at least 2 adjacent
transitions across the window. -/
def completionPattern (h : List Phase) : Prop :=
  4 ≤ h.length ∧
  Phase.down ∈ (lastN 6 h).dropLast ∧
  (lastN 6 h).getLast? = some Phase.up ∧
  2 ≤ countTransitions (lastN 6 h)

instance (h : List Phase) : Decidable (completionPattern h) := by
  unfold completionPattern; infer_instance

/-- The fields of the state that can influence any present or future
`update` result record.  `current_phase` and `last_phase` are excluded:
`last_phase` is write-only in the source, and `current_phase` is
overwritten by `update` before it is ever read into a result. -/
def obsEq (s t : DetectorState) : Prop :=
  s.rep_count = t.rep_count ∧
  s.phase_history = t.phase_history ∧
  s.position_history = t.position_history ∧
  s.last_rep_time = t.last_rep_time ∧
  s.min_rep_interval = t.min_rep_interval

/-- Five raw-`Down` frames at time 10, then five raw-`Up` frames at
time 12: more than 1.0 s elapses between the batches. -/
def inputsFar : List (List (ℚ × ℚ) × ℚ) :=
  [(downFrame, 10), (downFrame, 10), (downFrame, 10), (downFrame, 10),
   (downFrame, 10), (upFrame, 12), (upFrame, 12), (upFrame, 12),
   (upFrame, 12), (upFrame, 12)]

/-- Five raw-`Down` frames at time 10, then five raw-`Up` frames at
time 10.5: less than 1.0 s elapses between the batches. -/
def inputsNear : List (List (ℚ × ℚ) × ℚ) :=
  [(downFrame, 10), (downFrame, 10), (downFrame, 10), (downFrame, 10),
   (downFrame, 10), (upFrame, 21/2), (upFrame, 21/2), (upFrame, 21/2),
   (upFrame, 21/2), (upFrame, 21/2)]

/-- Five raw-`Down` frames: a static, constant-label feed. -/
def inputsDown5 : List (List (ℚ × ℚ) × ℚ) :=
  [(downFrame, 10), (downFrame, 10), (downFrame, 10), (downFrame, 10),
   (downFrame, 10)]

/-- A detector state one `Up` frame away from a counted rep: history
`[Down, Down, Transition]`, no rep counted yet. -/
def preRepState : DetectorState :=
  ⟨0, .neutral, .neutral, [.down, .down, .transition], 0, 1, []⟩

/-- A detector state one `Up` frame away from the completion pattern,
reached after a rep was counted at time 5. -/
def postRepState : DetectorState :=
  ⟨1, .neutral, .neutral, [.down, .down, .transition], 5, 1, []⟩

/-- A state whose smoothing window holds two `Down` labels, so that one
more raw label makes the majority vote active. -/
def smoothWitState : DetectorState :=
  ⟨0, .neutral, .neutral, [], 0, 1, [.down, .down]⟩

/-- An arbitrary used-detector state, for exercising `reset`. -/
def resetWitState : DetectorState :=
  ⟨7, .up, .down, [.up, .transition], 3, 1, [.down, .up]⟩

/-! ## Lemmas -/

lemma downFrame_length : downFrame.length = 33 := rfl

lemma upFrame_length : upFrame.length = 33 := rfl

lemma classifyRaw_downFrame : classifyRaw downFrame = Phase.down := by
  norm_num [classifyRaw, downFrame]

lemma classifyRaw_upFrame : classifyRaw upFrame = Phase.up := by
  norm_num [classifyRaw, upFrame]

lemma stepD1 : update initState downFrame 10 =
    (⟨.down, 0, false, [.down]⟩, sD1) := by
  norm_num +decide [update, stepHistory, detect_pushup_phase, check_rep_completion,
    count_rep, pushBounded, lastN, maxByCount, countTransitions,
    List.count_cons, List.count_nil, initState,
    classifyRaw_downFrame, downFrame_length, sD1]

lemma stepD2 : update sD1 downFrame 10 =
    (⟨.down, 0, false, [.down, .down]⟩, sD2) := by
  norm_num +decide [update, stepHistory, detect_pushup_phase, check_rep_completion,
    count_rep, pushBounded, lastN, maxByCount, countTransitions,
    List.count_cons, List.count_nil,
    classifyRaw_downFrame, downFrame_length, sD1, sD2]

lemma stepD3 : update sD2 downFrame 10 =
    (⟨.down, 0, false, [.down, .down, .down]⟩, sD3) := by
  norm_num +decide [update, stepHistory, detect_pushup_phase, check_rep_completion,
    count_rep, pushBounded, lastN, maxByCount, countTransitions,
    List.count_cons, List.count_nil,
    classifyRaw_downFrame, downFrame_length, sD2, sD3]

lemma stepD4 : update sD3 downFrame 10 =
    (⟨.down, 0, false, [.down, .down, .down, .down]⟩, sD4) := by
  norm_num +decide [update, stepHistory, detect_pushup_phase, check_rep_completion,
    count_rep, pushBounded, lastN, maxByCount, countTransitions,
    List.count_cons, List.count_nil,
    classifyRaw_downFrame, downFrame_length, sD3, sD4]

lemma stepD5 : update sD4 downFrame 10 =
    (⟨.down, 0, false, [.down, .down, .down, .down, .down]⟩, sD5) := by
  norm_num +decide [update, stepHistory, detect_pushup_phase, check_rep_completion,
    count_rep, pushBounded, lastN, maxByCount, countTransitions,
    List.count_cons, List.count_nil,
    classifyRaw_downFrame, downFrame_length, sD4, sD5]

lemma stepU6 (t : ℚ) : update sD5 upFrame t =
    (⟨.down, 0, false, [.down, .down, .down, .down, .down, .down]⟩, sU6) := by
  norm_num +decide [update, stepHistory, detect_pushup_phase, check_rep_completion,
    count_rep, pushBounded, lastN, maxByCount, countTransitions,
    List.count_cons, List.count_nil,
    classifyRaw_upFrame, upFrame_length, sD5, sU6]

lemma stepU7 (t : ℚ) : update sU6 upFrame t =
    (⟨.up, 0, false, [.down, .down, .down, .down, .down, .down, .up]⟩, sU7) := by
  norm_num +decide [update, stepHistory, detect_pushup_phase, check_rep_completion,
    count_rep, pushBounded, lastN, maxByCount, countTransitions,
    List.count_cons, List.count_nil,
    classifyRaw_upFrame, upFrame_length, sU6, sU7]

lemma stepU8 (t : ℚ) : update sU7 upFrame t =
    (⟨.up, 0, false, [.down, .down, .down, .down, .down, .down, .up, .up]⟩,
     sU8) := by
  norm_num +decide [update, stepHistory, detect_pushup_phase, check_rep_completion,
    count_rep, pushBounded, lastN, maxByCount, countTransitions,
    List.count_cons, List.count_nil,
    classifyRaw_upFrame, upFrame_length, sU7, sU8]

lemma stepU9 (t : ℚ) : update sU8 upFrame t =
    (⟨.up, 0, false,
      [.down, .down, .down, .down, .down, .down, .up, .up, .up]⟩, sU9) := by
  norm_num +decide [update, stepHistory, detect_pushup_phase, check_rep_completion,
    count_rep, pushBounded, lastN, maxByCount, countTransitions,
    List.count_cons, List.count_nil,
    classifyRaw_upFrame, upFrame_length, sU8, sU9]

lemma stepU10 (t : ℚ) : update sU9 upFrame t =
    (⟨.up, 0, false,
      [.down, .down, .down, .down, .down, .down, .up, .up, .up, .up]⟩,
     sU10) := by
  norm_num +decide [update, stepHistory, detect_pushup_phase, check_rep_completion,
    count_rep, pushBounded, lastN, maxByCount, countTransitions,
    List.count_cons, List.count_nil,
    classifyRaw_upFrame, upFrame_length, sU9, sU10]

/-! ### Field preservation: `detect_pushup_phase` only writes
`position_history`, `stepHistory` additionally writes `current_phase`,
`last_phase` and `phase_history`. -/

lemma detect_rep_count (s : DetectorState) (lm : List (ℚ × ℚ)) :
    (detect_pushup_phase s lm).2.rep_count = s.rep_count := by
  unfold detect_pushup_phase; split <;> rfl

lemma detect_phase_history (s : DetectorState) (lm : List (ℚ × ℚ)) :
    (detect_pushup_phase s lm).2.phase_history = s.phase_history := by
  unfold detect_pushup_phase; split <;> rfl

lemma detect_last_rep_time (s : DetectorState) (lm : List (ℚ × ℚ)) :
    (detect_pushup_phase s lm).2.last_rep_time = s.last_rep_time := by
  unfold detect_pushup_phase; split <;> rfl

lemma detect_min_rep_interval (s : DetectorState) (lm : List (ℚ × ℚ)) :
    (detect_pushup_phase s lm).2.min_rep_interval = s.min_rep_interval := by
  unfold detect_pushup_phase; split <;> rfl

lemma stepHistory_rep_count (s : DetectorState) (lm : List (ℚ × ℚ)) :
    (stepHistory s lm).rep_count = s.rep_count := by
  simp [stepHistory, detect_rep_count]

lemma stepHistory_last_rep_time (s : DetectorState) (lm : List (ℚ × ℚ)) :
    (stepHistory s lm).last_rep_time = s.last_rep_time := by
  simp [stepHistory, detect_last_rep_time]

lemma stepHistory_min_rep_interval (s : DetectorState) (lm : List (ℚ × ℚ)) :
    (stepHistory s lm).min_rep_interval = s.min_rep_interval := by
  simp [stepHistory, detect_min_rep_interval]

lemma stepHistory_phase_history (s : DetectorState) (lm : List (ℚ × ℚ)) :
    (stepHistory s lm).phase_history =
      pushBounded 10 s.phase_history (stepHistory s lm).current_phase := by
  simp [stepHistory, detect_phase_history]

/-! ### Case analysis of `check_rep_completion` -/

lemma check_cases (s : DetectorState) (now : ℚ) :
    check_rep_completion s now = (false, s) ∨
    check_rep_completion s now = (true, count_rep s now) := by
  simp only [check_rep_completion]
  split_ifs <;> simp

lemma check_false_of_time (s : DetectorState) (now : ℚ)
    (h : now - s.last_rep_time < s.min_rep_interval) :
    check_rep_completion s now = (false, s) := by
  by_cases hl : s.phase_history.length < 4 <;>
    simp [check_rep_completion, hl, h]

lemma check_true_of_pattern (s : DetectorState) (now : ℚ)
    (hpat : completionPattern s.phase_history)
    (htime : s.min_rep_interval ≤ now - s.last_rep_time) :
    check_rep_completion s now = (true, count_rep s now) := by
  obtain ⟨hlen, hdown, hup, htrans⟩ := hpat
  simp only [check_rep_completion]
  rw [if_neg (by omega), if_neg (not_lt.2 htime), if_pos ⟨hdown, hup⟩,
    if_pos htrans]

/-- `update`, written through the intermediate state of `stepHistory`. -/
lemma update_eq (s : DetectorState) (lm : List (ℚ × ℚ)) (now : ℚ) :
    update s lm now =
      ({ phase := (stepHistory s lm).current_phase
         rep_count := (check_rep_completion (stepHistory s lm) now).2.rep_count
         rep_completed := (check_rep_completion (stepHistory s lm) now).1
         phase_history :=
           (check_rep_completion (stepHistory s lm) now).2.phase_history },
       (check_rep_completion (stepHistory s lm) now).2) := rfl

/-! ### Transition counting -/

lemma countTransitions_le_cons (a : Phase) (l : List Phase) :
    countTransitions l ≤ countTransitions (a :: l) := by
  cases l with
  | nil => simp [countTransitions]
  | cons b t =>
      show countTransitions (b :: t) ≤ (if a ≠ b then 1 else 0) + countTransitions (b :: t)
      exact Nat.le_add_left _ _

lemma countTransitions_le_append (l1 l2 : List Phase) :
    countTransitions l2 ≤ countTransitions (l1 ++ l2) := by
  induction l1 with
  | nil => simp
  | cons a l1 ih => exact ih.trans (by rw [List.cons_append]; exact countTransitions_le_cons _ _)

lemma countTransitions_zero_of_const (l : List Phase) (c : Phase)
    (h : ∀ x ∈ l, x = c) : countTransitions l = 0 := by
  induction l with
  | nil => rfl
  | cons a t ih =>
      cases t with
      | nil => rfl
      | cons b u =>
          have ha : a = c := h a (by simp)
          have hb : b = c := h b (by simp)
          have hrest : countTransitions (b :: u) = 0 :=
            ih (fun x hx => h x (List.mem_cons_of_mem a hx))
          show (if a ≠ b then 1 else 0) + countTransitions (b :: u) = 0
          rw [hrest, if_neg (by rw [ha, hb]; simp)]

/-! ### `lastN` -/

lemma lastN_suffix (n : Nat) (l : List Phase) : lastN n l <:+ l :=
  List.drop_suffix _ _

lemma lastN_length (n : Nat) (l : List Phase) :
    (lastN n l).length = min n l.length := by
  simp [lastN]; omega

lemma lastN_append (l1 l2 : List Phase) (n : Nat) (h : l2.length ≤ n) :
    lastN n (l1 ++ l2) = lastN (n - l2.length) l1 ++ l2 := by
  unfold lastN
  rw [List.length_append,
    show l1.length + l2.length - n = l1.length - (n - l2.length) by omega]
  exact List.drop_append_of_le_length (by omega)

/-- Any history ending in `[Down, Down, Transition, Up]` satisfies the
completion pattern. -/
lemma completionPattern_of_ddtu (h : List Phase)
    (hs : [Phase.down, Phase.down, Phase.transition, Phase.up] <:+ h) :
    completionPattern h := by
  obtain ⟨pre, hpre⟩ := hs
  subst hpre
  refine ⟨by simp, ?_, ?_, ?_⟩
  · rw [lastN_append pre _ 6 (by simp),
      show ([Phase.down, Phase.down, Phase.transition, Phase.up] : List Phase) =
        [Phase.down, Phase.down, Phase.transition] ++ [Phase.up] by rfl,
      ← List.append_assoc, List.dropLast_concat]
    simp
  · rw [lastN_append pre _ 6 (by simp),
      show ([Phase.down, Phase.down, Phase.transition, Phase.up] : List Phase) =
        [Phase.down, Phase.down, Phase.transition] ++ [Phase.up] by rfl,
      ← List.append_assoc]
    exact List.getLast?_concat _
  · rw [lastN_append pre _ 6 (by simp)]
    exact le_trans (by decide) (countTransitions_le_append _ _)

/-! ### Majority vote -/

lemma maxByCount_mem_three (a b c : Phase) :
    maxByCount [a, b, c] ∈ [a, b, c] := by
  revert a b c; decide

lemma maxByCount_count_three (a b c p : Phase) :
    List.count p [a, b, c] ≤ List.count (maxByCount [a, b, c]) [a, b, c] := by
  revert a b c p; decide

lemma maxByCount_ddu :
    maxByCount [Phase.down, Phase.down, Phase.up] = Phase.down := by decide

lemma exists_three (l : List Phase) (h : l.length = 3) :
    ∃ a b c, l = [a, b, c] := by
  match l, h with
  | [a, b, c], _ => exact ⟨a, b, c, rfl⟩

/-! ### Static input never completes a rep -/

lemma check_false_of_const (s : DetectorState) (now : ℚ) (c : Phase)
    (h : ∀ x ∈ s.phase_history, x = c) :
    check_rep_completion s now = (false, s) := by
  have hct : countTransitions (lastN 6 s.phase_history) = 0 :=
    countTransitions_zero_of_const _ c
      (fun x hx => h x ((lastN_suffix 6 s.phase_history).subset hx))
  simp only [check_rep_completion]
  split_ifs with h1 h2 h3 h4
  · rfl
  · rfl
  · omega
  · rfl
  · rfl

/-! ### Observational equivalence: `current_phase` and `last_phase`
never reach a result record -/

lemma obsEq_refl (s : DetectorState) : obsEq s s :=
  ⟨rfl, rfl, rfl, rfl, rfl⟩

lemma detect_fst_congr (s t : DetectorState) (lm : List (ℚ × ℚ))
    (h : s.position_history = t.position_history) :
    (detect_pushup_phase s lm).1 = (detect_pushup_phase t lm).1 := by
  by_cases hl : lm.length ≠ 33 <;> simp [detect_pushup_phase, hl, h]

lemma detect_pos_congr (s t : DetectorState) (lm : List (ℚ × ℚ))
    (h : s.position_history = t.position_history) :
    (detect_pushup_phase s lm).2.position_history =
      (detect_pushup_phase t lm).2.position_history := by
  by_cases hl : lm.length ≠ 33 <;> simp [detect_pushup_phase, hl, h]

lemma stepHistory_current_phase (s : DetectorState) (lm : List (ℚ × ℚ)) :
    (stepHistory s lm).current_phase =
      (detect_pushup_phase { s with last_phase := s.current_phase } lm).1 := rfl

lemma stepHistory_position_history (s : DetectorState) (lm : List (ℚ × ℚ)) :
    (stepHistory s lm).position_history =
      (detect_pushup_phase { s with last_phase := s.current_phase }
        lm).2.position_history := rfl

lemma stepHistory_obs (s t : DetectorState) (lm : List (ℚ × ℚ))
    (h : obsEq s t) :
    obsEq (stepHistory s lm) (stepHistory t lm) ∧
    (stepHistory s lm).current_phase = (stepHistory t lm).current_phase := by
  obtain ⟨h1, h2, h3, h4, h5⟩ := h
  have hA : ({ s with last_phase := s.current_phase } :
        DetectorState).position_history =
      ({ t with last_phase := t.current_phase } :
        DetectorState).position_history := h3
  have hcur : (stepHistory s lm).current_phase =
      (stepHistory t lm).current_phase := by
    rw [stepHistory_current_phase, stepHistory_current_phase]
    exact detect_fst_congr _ _ lm hA
  refine ⟨⟨?_, ?_, ?_, ?_, ?_⟩, hcur⟩
  · rw [stepHistory_rep_count, stepHistory_rep_count]; exact h1
  · rw [stepHistory_phase_history, stepHistory_phase_history, h2, hcur]
  · rw [stepHistory_position_history, stepHistory_position_history]
    exact detect_pos_congr _ _ lm hA
  · rw [stepHistory_last_rep_time, stepHistory_last_rep_time]; exact h4
  · rw [stepHistory_min_rep_interval, stepHistory_min_rep_interval]; exact h5

lemma check_obs (s t : DetectorState) (now : ℚ) (h : obsEq s t) :
    (check_rep_completion s now).1 = (check_rep_completion t now).1 ∧
    obsEq (check_rep_completion s now).2 (check_rep_completion t now).2 := by
  obtain ⟨h1, h2, h3, h4, h5⟩ := h
  simp only [check_rep_completion, h2, h4, h5]
  split_ifs <;>
    exact ⟨rfl, by simp [obsEq, count_rep, h1, h2, h3, h4, h5]⟩

lemma update_obs (s t : DetectorState) (lm : List (ℚ × ℚ)) (now : ℚ)
    (h : obsEq s t) :
    (update s lm now).1 = (update t lm now).1 ∧
    obsEq (update s lm now).2 (update t lm now).2 := by
  obtain ⟨hstep, hphase⟩ := stepHistory_obs s t lm h
  obtain ⟨hb, hobs⟩ := check_obs (stepHistory s lm) (stepHistory t lm) now hstep
  obtain ⟨k1, k2, k3, k4, k5⟩ := hobs
  exact ⟨by simp [update_eq, hphase, hb, k1, k2], by
    simpa [update_eq] using ⟨k1, k2, k3, k4, k5⟩⟩

lemma runDetector_obs (ins : List (List (ℚ × ℚ) × ℚ)) (s t : DetectorState)
    (h : obsEq s t) :
    (runDetector s ins).1 = (runDetector t ins).1 := by
  induction ins generalizing s t with
  | nil => rfl
  | cons p rest ih =>
      obtain ⟨lm, tm⟩ := p
      obtain ⟨hr, hs⟩ := update_obs s t lm tm h
      simp [runDetector, hr, ih _ _ hs]

/-! ### Evaluation of the concrete traces -/

lemma run_far_state : (runDetector initState inputsFar).2 = sU10 := by
  simp [inputsFar, runDetector, stepD1, stepD2, stepD3, stepD4, stepD5,
    stepU6, stepU7, stepU8, stepU9, stepU10]

lemma run_near_state : (runDetector initState inputsNear).2 = sU10 := by
  simp [inputsNear, runDetector, stepD1, stepD2, stepD3, stepD4, stepD5,
    stepU6, stepU7, stepU8, stepU9, stepU10]

lemma run_down5 : runDetector initState inputsDown5 =
    ([⟨.down, 0, false, [.down]⟩,
      ⟨.down, 0, false, [.down, .down]⟩,
      ⟨.down, 0, false, [.down, .down, .down]⟩,
      ⟨.down, 0, false, [.down, .down, .down, .down]⟩,
      ⟨.down, 0, false, [.down, .down, .down, .down, .down]⟩], sD5) := by
  simp [inputsDown5, runDetector, stepD1, stepD2, stepD3, stepD4, stepD5]

lemma stepHistory_preRep : stepHistory preRepState upFrame =
    ⟨0, .up, .neutral, [.down, .down, .transition, .up], 0, 1, [.up]⟩ := by
  norm_num +decide [stepHistory, detect_pushup_phase, pushBounded, lastN,
    classifyRaw_upFrame, upFrame_length, preRepState]

lemma stepHistory_postRep : stepHistory postRepState upFrame =
    ⟨1, .up, .neutral, [.down, .down, .transition, .up], 5, 1, [.up]⟩ := by
  norm_num +decide [stepHistory, detect_pushup_phase, pushBounded, lastN,
    classifyRaw_upFrame, upFrame_length, postRepState]

lemma update_preRep : update preRepState upFrame 5 =
    (⟨.up, 1, true, []⟩, ⟨1, .up, .neutral, [], 5, 1, [.up]⟩) := by
  norm_num +decide [update, stepHistory, detect_pushup_phase,
    check_rep_completion, count_rep, pushBounded, lastN, maxByCount,
    countTransitions, List.count_cons, List.count_nil,
    classifyRaw_upFrame, upFrame_length, preRepState]

lemma detect_smoothWit : detect_pushup_phase smoothWitState upFrame =
    (Phase.down, ⟨0, .neutral, .neutral, [], 0, 1, [.down, .down, .up]⟩) := by
  norm_num +decide [detect_pushup_phase, pushBounded, lastN, maxByCount,
    List.count_cons, List.count_nil,
    classifyRaw_upFrame, upFrame_length, smoothWitState]

/-- If every result of a run carries the same phase label `c` and the
starting history is constantly `c`, no step of the run completes a rep:
the history stays constant, so the inspected window never has two
adjacent transitions. -/
lemma run_no_rep_of_const (ins : List (List (ℚ × ℚ) × ℚ))
    (s : DetectorState) (c : Phase)
    (hist : ∀ x ∈ s.phase_history, x = c)
    (h : ∀ r ∈ (runDetector s ins).1, r.phase = c) :
    ∀ r ∈ (runDetector s ins).1, r.rep_completed = false := by
  induction ins generalizing s with
  | nil => intro r hr; simp [runDetector] at hr
  | cons p rest ih =>
      obtain ⟨lm, tm⟩ := p
      have hcur : (stepHistory s lm).current_phase = c :=
        h (update s lm tm).1 (by simp [runDetector])
      have hist3 : ∀ x ∈ (stepHistory s lm).phase_history, x = c := by
        rw [stepHistory_phase_history, hcur]
        intro x hx
        simp only [pushBounded] at hx
        rcases List.mem_append.1 ((lastN_suffix _ _).subset hx) with h1 | h1
        · exact hist x h1
        · simpa using h1
      have hc := check_false_of_const (stepHistory s lm) tm c hist3
      have hupd2 : (update s lm tm).2 = stepHistory s lm := by
        rw [update_eq, hc]
      simp only [runDetector] at h ⊢
      rw [List.forall_mem_cons] at h ⊢
      obtain ⟨h0, hrest⟩ := h
      rw [hupd2] at hrest ⊢
      refine ⟨?_, ih (stepHistory s lm) hist3 hrest⟩
      rw [update_eq, hc]

/-! ## The claims -/

/-- **C1**: for a detector whose `phase_history` — after the current
update pushed its smoothed label — ends with
`[Down, Down, Transition, Up]`, and whose debounce interval has elapsed,
that update returns `rep_completed = true`, increments `rep_count` by
exactly 1 (both in the result record and in the state), and clears
`rep_history` (the snapshot in the result record is empty and so is the
post-state history). -/
theorem C1_ddtu_completes (s : DetectorState) (lm : List (ℚ × ℚ)) (now : ℚ)
    (htime : s.min_rep_interval ≤ now - s.last_rep_time)
    (hsuf : [Phase.down, Phase.down, Phase.transition, Phase.up] <:+
      (stepHistory s lm).phase_history) :
    (update s lm now).1.rep_completed = true ∧
    (update s lm now).1.rep_count = s.rep_count + 1 ∧
    (update s lm now).1.phase_history = [] ∧
    (update s lm now).2.phase_history = [] := by
  have hpat := completionPattern_of_ddtu _ hsuf
  have htime' : (stepHistory s lm).min_rep_interval ≤
      now - (stepHistory s lm).last_rep_time := by
    rw [stepHistory_min_rep_interval, stepHistory_last_rep_time]; exact htime
  have hc := check_true_of_pattern (stepHistory s lm) now hpat htime'
  rw [update_eq]
  simp [hc, count_rep, stepHistory_rep_count]

/-- Witness for C1: the concrete state with history
`[Down, Down, Transition]` fed an `Up`-classified frame at time 5. -/
theorem C1_witness :
    (update preRepState upFrame 5).1.rep_completed = true ∧
    (update preRepState upFrame 5).1.rep_count = preRepState.rep_count + 1 ∧
    (update preRepState upFrame 5).1.phase_history = [] ∧
    (update preRepState upFrame 5).2.phase_history = [] :=
  C1_ddtu_completes preRepState upFrame 5 (by simp [preRepState])
    (by rw [stepHistory_preRep])

set_option maxHeartbeats 1600000 in
/-- **C2**: on every frame of exactly 33 landmarks, the source's raw
classification (`classifyRaw`, with its `if`/`elif` vote structure)
computes exactly the spec's weighted indicator voting with the stated
thresholds, weights and decision rule (`specClassify`). -/
theorem C2_classifier_matches_spec (lm : List (ℚ × ℚ))
    (h : lm.length = 33) :
    classifyRaw lm = specClassify lm := by
  have h' : ¬ (lm.length ≠ 33) := by simp [h]
  simp only [classifyRaw, specClassify, if_neg h']
  split_ifs <;> first | rfl | omega | linarith

/-- Witness for C2: the classifier agreement evaluated on a concrete
33-landmark frame. -/
theorem C2_witness :
    upFrame.length = 33 ∧ classifyRaw upFrame = specClassify upFrame :=
  ⟨upFrame_length, C2_classifier_matches_spec upFrame upFrame_length⟩

/-- **C3** (counterexample): five raw-`Down` frames followed — more than
1.0 s later — by five raw-`Up` frames leave `rep_count = 0`, not 1 as
the claim states: the majority smoothing turns the feed into
`down…down, up…up`, whose inspected window has only one adjacent
transition, below the `≥ 2` requirement. -/
theorem C3_counterexample :
    classifyRaw downFrame = Phase.down ∧
    classifyRaw upFrame = Phase.up ∧
    (1 : ℚ) < 12 - 10 ∧
    (runDetector initState inputsFar).2.rep_count = 0 ∧
    ¬ (runDetector initState inputsFar).2.rep_count = 1 := by
  refine ⟨classifyRaw_downFrame, classifyRaw_upFrame, by norm_num, ?_, ?_⟩ <;>
    rw [run_far_state] <;> simp [sU10]

/-- **C3** (amended): feeding a fresh detector 5 frames raw-classified
`Down` and then 5 frames raw-classified `Up` yields `rep_count = 0` by
the end of the second batch — both when more than 1.0 s and when less
than 1.0 s elapses between the batches — because the abrupt down→up
change produces only one adjacent transition in the smoothed history,
below the `≥ 2`-transition completion requirement. -/
theorem C3_amended_zero_reps :
    classifyRaw downFrame = Phase.down ∧
    classifyRaw upFrame = Phase.up ∧
    (runDetector initState inputsFar).2.rep_count = 0 ∧
    (runDetector initState inputsNear).2.rep_count = 0 := by
  refine ⟨classifyRaw_downFrame, classifyRaw_upFrame, ?_, ?_⟩
  · rw [run_far_state]; rfl
  · rw [run_near_state]; rfl

/-- **C4**: of two update calls whose (post-push) histories both satisfy
the completion pattern, where the first is past its debounce interval
and counts a rep at time `t1`, a second call less than
`min_rep_interval` after `t1` (with no rep counted in between, so its
state's `last_rep_time` is `t1`) returns `rep_completed = false` and
leaves `rep_count` unchanged; only the first returns
`rep_completed = true`. -/
theorem C4_debounce_blocks_second (s1 : DetectorState)
    (lm1 : List (ℚ × ℚ)) (t1 : ℚ) (s2 : DetectorState)
    (lm2 : List (ℚ × ℚ)) (t2 : ℚ)
    (hp1 : completionPattern (stepHistory s1 lm1).phase_history)
    (ht1 : s1.min_rep_interval ≤ t1 - s1.last_rep_time)
    (_hp2 : completionPattern (stepHistory s2 lm2).phase_history)
    (hlast : s2.last_rep_time = t1)
    (ht2 : t2 - t1 < s2.min_rep_interval) :
    (update s1 lm1 t1).1.rep_completed = true ∧
    (update s2 lm2 t2).1.rep_completed = false ∧
    (update s2 lm2 t2).1.rep_count = s2.rep_count := by
  have ht1' : (stepHistory s1 lm1).min_rep_interval ≤
      t1 - (stepHistory s1 lm1).last_rep_time := by
    rw [stepHistory_min_rep_interval, stepHistory_last_rep_time]; exact ht1
  have ht2' : t2 - (stepHistory s2 lm2).last_rep_time <
      (stepHistory s2 lm2).min_rep_interval := by
    rw [stepHistory_min_rep_interval, stepHistory_last_rep_time, hlast]
    exact ht2
  have hc2 := check_false_of_time (stepHistory s2 lm2) t2 ht2'
  refine ⟨?_, ?_, ?_⟩
  · rw [update_eq, check_true_of_pattern _ _ hp1 ht1']
  · rw [update_eq, hc2]
  · rw [update_eq, hc2]
    exact stepHistory_rep_count s2 lm2

/-- Witness for C4: a rep counted at time 5, then a second
pattern-satisfying update at time 5.5. -/
theorem C4_witness :
    (update preRepState upFrame 5).1.rep_completed = true ∧
    (update postRepState upFrame (11/2)).1.rep_completed = false ∧
    (update postRepState upFrame (11/2)).1.rep_count =
      postRepState.rep_count :=
  C4_debounce_blocks_second preRepState upFrame 5 postRepState upFrame
    (11/2)
    (by rw [stepHistory_preRep]; decide)
    (by simp [preRepState])
    (by rw [stepHistory_postRep]; decide)
    rfl
    (by norm_num [postRepState])

/-- **C5**: whenever the smoothing window (after the current raw label
was pushed) holds at least 3 labels, the label `detect_pushup_phase`
returns is one of the last 3 window entries and its count among them is
maximal — it is a most frequent label of the inspected sub-window — and
in particular a window ending `[Down, Down, Up]` yields `Down`. -/
theorem C5_smoothed_is_majority (s : DetectorState) (lm : List (ℚ × ℚ))
    (h33 : lm.length = 33)
    (h3 : 3 ≤ (detect_pushup_phase s lm).2.position_history.length) :
    (detect_pushup_phase s lm).1 ∈
      lastN 3 (detect_pushup_phase s lm).2.position_history ∧
    (∀ p : Phase,
      (lastN 3 (detect_pushup_phase s lm).2.position_history).count p ≤
      (lastN 3 (detect_pushup_phase s lm).2.position_history).count
        (detect_pushup_phase s lm).1) ∧
    (lastN 3 (detect_pushup_phase s lm).2.position_history =
        [Phase.down, Phase.down, Phase.up] →
      (detect_pushup_phase s lm).1 = Phase.down) := by
  have h' : ¬ (lm.length ≠ 33) := by simp [h33]
  simp only [detect_pushup_phase, if_neg h'] at h3 ⊢
  rw [if_pos h3]
  obtain ⟨a, b, c, habc⟩ :=
    exists_three (lastN 3 (pushBounded 5 s.position_history
      (classifyRaw lm))) (by rw [lastN_length]; omega)
  rw [habc]
  refine ⟨maxByCount_mem_three a b c,
    fun p => maxByCount_count_three a b c p, fun hE => ?_⟩
  obtain ⟨h1, h2, h3c⟩ : a = Phase.down ∧ b = Phase.down ∧ c = Phase.up := by
    simpa using hE
  subst h1; subst h2; subst h3c
  exact maxByCount_ddu

/-- Witness for C5: a window `[Down, Down]` fed a raw `Up` gives the
3-entry window `[Down, Down, Up]` and the smoothed label `Down`. -/
theorem C5_witness :
    ((detect_pushup_phase smoothWitState upFrame).1 ∈
      lastN 3 (detect_pushup_phase smoothWitState upFrame).2.position_history) ∧
    (detect_pushup_phase smoothWitState upFrame).1 = Phase.down :=
  ⟨(C5_smoothed_is_majority smoothWitState upFrame upFrame_length
      (by rw [detect_smoothWit]; decide)).1,
   (C5_smoothed_is_majority smoothWitState upFrame upFrame_length
      (by rw [detect_smoothWit]; decide)).2.2
     (by rw [detect_smoothWit]; decide)⟩

/-- **C6**: a landmark sequence whose length is not 33 classifies as
`Neutral` (for every detector state — no error path exists), the
`update` built on it reports phase `Neutral`, and the result record is
well-formed: `update` is total and its record always mirrors the
post-update state's `rep_count` and history snapshot. -/
theorem C6_malformed_is_neutral (s : DetectorState) (lm : List (ℚ × ℚ))
    (now : ℚ) (h : lm.length ≠ 33) :
    (detect_pushup_phase s lm).1 = Phase.neutral ∧
    (update s lm now).1.phase = Phase.neutral ∧
    (update s lm now).1.rep_count = (update s lm now).2.rep_count ∧
    (update s lm now).1.phase_history =
      (update s lm now).2.phase_history := by
  refine ⟨by simp [detect_pushup_phase, h], ?_, rfl, rfl⟩
  show (stepHistory s lm).current_phase = Phase.neutral
  rw [stepHistory_current_phase]
  simp [detect_pushup_phase, h]

/-- Witness for C6: the empty landmark list. -/
theorem C6_witness :
    ([] : List (ℚ × ℚ)).length ≠ 33 ∧
    ((detect_pushup_phase initState []).1 = Phase.neutral ∧
     (update initState [] 0).1.phase = Phase.neutral ∧
     (update initState [] 0).1.rep_count = (update initState [] 0).2.rep_count ∧
     (update initState [] 0).1.phase_history =
       (update initState [] 0).2.phase_history) :=
  ⟨by decide, C6_malformed_is_neutral initState [] 0 (by decide)⟩

/-- **C7**: `reset` zeroes `rep_count` and `last_rep_time`, empties both
FIFOs and keeps the configuration constant `min_rep_interval`; and a
reset detector is observationally indistinguishable from a freshly
constructed one: every subsequent sequence of `update` calls returns
identical result records (the surviving `current_phase`/`last_phase`
values never reach a result). -/
theorem C7_reset_equiv (s : DetectorState) :
    (reset s).rep_count = 0 ∧
    (reset s).phase_history = [] ∧
    (reset s).position_history = [] ∧
    (reset s).last_rep_time = 0 ∧
    (reset s).min_rep_interval = s.min_rep_interval ∧
    (s.min_rep_interval = 1 →
      ∀ ins : List (List (ℚ × ℚ) × ℚ),
        (runDetector (reset s) ins).1 = (runDetector initState ins).1) := by
  refine ⟨rfl, rfl, rfl, rfl, rfl, fun h ins => ?_⟩
  exact runDetector_obs ins _ _ ⟨rfl, rfl, rfl, rfl, by simp [reset, initState, h]⟩

/-- Witness for C7: a used detector, reset, replays a 5-frame feed with
the same result records as a fresh instance. -/
theorem C7_witness :
    (reset resetWitState).rep_count = 0 ∧
    (runDetector (reset resetWitState) inputsDown5).1 =
      (runDetector initState inputsDown5).1 :=
  ⟨(C7_reset_equiv resetWitState).1,
   (C7_reset_equiv resetWitState).2.2.2.2.2 rfl inputsDown5⟩

/-- **C8**: starting from a fresh detector, an input sequence whose
smoothed label is one constant `c` across all frames never produces
`rep_completed = true`: a constant history has no adjacent transition,
so the `≥ 2`-transition requirement can never be met. -/
theorem C8_static_never_completes (ins : List (List (ℚ × ℚ) × ℚ))
    (c : Phase)
    (h : ∀ r ∈ (runDetector initState ins).1, r.phase = c) :
    ∀ r ∈ (runDetector initState ins).1, r.rep_completed = false :=
  run_no_rep_of_const ins initState c (by simp [initState]) h

/-- Witness for C8: five `Down`-classified frames — constant smoothed
label `Down`, no completion anywhere. -/
theorem C8_witness :
    (∀ r ∈ (runDetector initState inputsDown5).1, r.phase = Phase.down) ∧
    (∀ r ∈ (runDetector initState inputsDown5).1,
      r.rep_completed = false) := by
  have hphase : ∀ r ∈ (runDetector initState inputsDown5).1,
      r.phase = Phase.down := by
    rw [run_down5]; decide
  exact ⟨hphase, C8_static_never_completes inputsDown5 Phase.down hphase⟩

/-- **C9**: `rep_count` is a monotone non-negative counter (it is a `ℕ`
in this embedding, as in the source where it starts at 0 and is only
ever incremented): every single `update` call leaves it unchanged or
increments it by exactly 1, so it never decreases. -/
theorem C9_rep_count_step (s : DetectorState) (lm : List (ℚ × ℚ))
    (now : ℚ) :
    (update s lm now).2.rep_count = s.rep_count ∨
    (update s lm now).2.rep_count = s.rep_count + 1 := by
  rcases check_cases (stepHistory s lm) now with hc | hc
  · left; rw [update_eq, hc]; exact stepHistory_rep_count s lm
  · right; rw [update_eq, hc]
    show (stepHistory s lm).rep_count + 1 = s.rep_count + 1
    rw [stepHistory_rep_count]

/-- **C10**: whenever `update` reports `rep_completed = true`, the
history snapshot in its result record is empty, because `count_rep`
clears `phase_history` before the record is built. -/
theorem C10_snapshot_cleared (s : DetectorState) (lm : List (ℚ × ℚ))
    (now : ℚ) (h : (update s lm now).1.rep_completed = true) :
    (update s lm now).1.phase_history = [] := by
  rcases check_cases (stepHistory s lm) now with hc | hc
  · rw [update_eq, hc] at h; exact absurd h (by simp)
  · rw [update_eq, hc]; rfl

/-- Witness for C10: the completing update of the C1 scenario reports
an empty snapshot. -/
theorem C10_witness :
    (update preRepState upFrame 5).1.rep_completed = true ∧
    (update preRepState upFrame 5).1.phase_history = [] := by
  have h : (update preRepState upFrame 5).1.rep_completed = true := by
    rw [update_preRep]
  exact ⟨h, C10_snapshot_cleared preRepState upFrame 5 h⟩

end PushupDetector
